import Mathlib

/-!
# Verification of the Google Meet ↔ Home Assistant extension core

A shallow embedding of the state-reconciliation and delivery subsystem of the
extension (`src/config.ts`, `src/background.ts` / the bundled `hass` module).

The effectful JavaScript code is embedded as pure Lean functions taking the
behaviour of the external world (HTTP fetch outcomes, the tab query outcome,
the stored configuration) as explicit oracle arguments, and returning both the
computed result and a trace of the observable effects (HTTP requests issued,
badge updates, exceptions escaping the handler).
-/

set_option maxRecDepth 2000
set_option linter.unusedVariables false

namespace MeetHass

/-- `UpdateMethod` from `config.ts`: `"api" | "webhook"`. -/
inductive UpdateMethod where
  | api
  | webhook
deriving DecidableEq, Repr

/-- The `Config` record from `config.ts`. -/
structure Config where
  host : String
  token : String
  entity_id : String
  method : UpdateMethod
  webhook_url : String
deriving DecidableEq, Repr

/-- `defaultConfig` from `config.ts`. -/
def defaultConfig : Config :=
  { host := ""
    token := ""
    entity_id := "input_boolean.in_meeting"
    method := UpdateMethod.api
    webhook_url := "" }

/-- Result record of `validateConfig`. -/
structure Validation where
  isValid : Bool
  errors : List String
deriving DecidableEq, Repr

/-- JavaScript string falsiness for the `!config.host` style tests in
`validateConfig`: a string is falsy exactly when it is empty. -/
def strFalsy (s : String) : Bool := s = ""

/-- Whitespace, for the purposes of JavaScript `String.prototype.trim()`. -/
def isWs (c : Char) : Bool := c = ' ' || c = '\t' || c = '\n' || c = '\r'

/-- JavaScript `String.prototype.trim()`: strip whitespace from both ends. -/
def jsTrim (s : String) : String :=
  String.mk (((s.data.dropWhile isWs).reverse.dropWhile isWs).reverse)

/-- JavaScript `String.prototype.startsWith(p)`. -/
def jsStartsWith (s p : String) : Bool := p.data.isPrefixOf s.data

/-- `validateConfig` from `config.ts`, line by line.  The first-run check uses
JS falsiness (`!config.host && !config.token && !config.webhook_url`); the
per-field checks additionally test `trim() === ""` and, for the token, the
placeholder sentinel `"xxxxxxx"`. -/
def validateConfig (config : Config) : Validation :=
  let isEmptyConfig := strFalsy config.host && strFalsy config.token
      && strFalsy config.webhook_url
  if isEmptyConfig then
    { isValid := false, errors := ["Please configure the extension first"] }
  else
    let errors : List String :=
      if config.method = UpdateMethod.api then
        (if strFalsy config.host || jsTrim config.host = "" then
          ["Home Assistant host URL is required"]
        else if !(jsStartsWith config.host "http://")
            && !(jsStartsWith config.host "https://") then
          ["Home Assistant host URL must start with http:// or https://"]
        else []) ++
        (if strFalsy config.entity_id || jsTrim config.entity_id = "" then
          ["Entity ID is required"]
        else []) ++
        (if strFalsy config.token || jsTrim config.token = ""
            || config.token = "xxxxxxx" then
          ["API token is required for API method"]
        else [])
      else if config.method = UpdateMethod.webhook then
        (if strFalsy config.webhook_url || jsTrim config.webhook_url = "" then
          ["Webhook URL is required for webhook method"]
        else [])
      else []
    { isValid := errors.isEmpty, errors := errors }

/-- `isConfigured` from `config.ts`. -/
def isConfigured (config : Config) : Bool :=
  (validateConfig config).isValid

example : (validateConfig defaultConfig).errors
    = ["Please configure the extension first"] := by decide

example :
    (validateConfig
      { host := "ha.local"
        token := "xxxxxxx"
        entity_id := ""
        method := UpdateMethod.api
        webhook_url := "" }).errors
    = ["Home Assistant host URL must start with http:// or https://",
       "Entity ID is required",
       "API token is required for API method"] := by decide

example :
    (validateConfig
      { host := ""
        token := "t"
        entity_id := "e"
        method := UpdateMethod.webhook
        webhook_url := "https://x/y" }).isValid
    = true := by decide

/-! ## The `hass` module: connectivity, retry, delivery, connection tests

JavaScript `fetch` either resolves to a response or rejects with an error.
The environment's reply to each fetch is threaded in as an explicit
`Except JsError HttpResponse` oracle argument, and each embedded function
additionally returns the list of HTTP requests it issued, so that claims
about which calls are (not) made are statable. -/

/-- A JavaScript error value: either the `Error` thrown by the code itself
for a non-success HTTP response, or a rejection coming from the network. -/
inductive JsError where
  | httpError (status : Nat) (statusText : String)
  | netError (msg : String)
deriving DecidableEq, Repr

/-- The part of a `fetch` `Response` the code inspects. -/
structure HttpResponse where
  status : Nat
  statusText : String
deriving DecidableEq, Repr

/-- `Response.ok`: status in the inclusive range 200-299. -/
def HttpResponse.isOk (r : HttpResponse) : Bool :=
  200 ≤ r.status && r.status < 300

/-- The JSON body of a request, kept structural. -/
inductive RequestBody where
  | entityId (e : String)
  | stateVal (s : String)
  | valueVal (v : String)
deriving DecidableEq, Repr

/-- An HTTP request as issued by the code: method, URL, optional
`Authorization` header value, optional JSON body. -/
structure HttpRequest where
  httpMethod : String
  url : String
  auth : Option String
  body : Option RequestBody
deriving DecidableEq, Repr

/-- `checkNetworkConnectivity`: HEAD probe of a fixed external endpoint;
`response.ok` on resolution, `false` when the fetch throws. -/
def checkNetworkConnectivity (probeOutcome : Except JsError HttpResponse) :
    Bool :=
  match probeOutcome with
  | Except.ok r => r.isOk
  | Except.error _ => false

/-- Result of a `retryWithBackoff` run: the value or last error, the number
of invocations of the wrapped operation, and the backoff waits performed
between attempts, in order and in milliseconds. -/
structure RetryResult (α : Type) where
  result : Except JsError α
  calls : Nat
  delays : List Nat
deriving Repr

/-- The loop of `retryWithBackoff`, indexed by the number of attempts still
allowed after the current one (`maxRetries - attempt`).  On success return
immediately; on failure at the final attempt rethrow the last error;
otherwise wait `baseDelay * 2 ^ attempt` and try again. -/
def retryAux (fn : Nat → Except JsError α) (baseDelay attempt : Nat) :
    Nat → RetryResult α
  | 0 =>
    match fn attempt with
    | Except.ok v => ⟨Except.ok v, 1, []⟩
    | Except.error e => ⟨Except.error e, 1, []⟩
  | Nat.succ n =>
    match fn attempt with
    | Except.ok v => ⟨Except.ok v, 1, []⟩
    | Except.error _ =>
      let r := retryAux fn baseDelay (attempt + 1) n
      ⟨r.result, r.calls + 1, baseDelay * 2 ^ attempt :: r.delays⟩

/-- `retryWithBackoff` from the `hass` module.  The wrapped operation is
embedded as a function from the attempt index to that invocation's outcome.
Source defaults: `maxRetries = 3`, `baseDelay = 1000`. -/
def retryWithBackoff (fn : Nat → Except JsError α)
    (maxRetries baseDelay : Nat) : RetryResult α :=
  retryAux fn baseDelay 0 maxRetries

/-- The service-call request built by `setEntityStateAPI`:
`POST {host}/api/services/input_boolean.turn_on|turn_off`, bearer auth,
body `{entity_id}`. -/
def serviceRequest (config : Config) (newValue : Bool) : HttpRequest :=
  { httpMethod := "POST"
    url := config.host ++ "/api/services/"
      ++ (if newValue then "input_boolean.turn_on" else "input_boolean.turn_off")
    auth := some ("Bearer " ++ config.token)
    body := some (RequestBody.entityId config.entity_id) }

/-- The fallback direct state-set request built by `setEntityStateAPI`:
`POST {host}/api/states/{entity_id}`, bearer auth, body `{state}`. -/
def stateRequest (config : Config) (newValue : Bool) : HttpRequest :=
  { httpMethod := "POST"
    url := config.host ++ "/api/states/" ++ config.entity_id
    auth := some ("Bearer " ++ config.token)
    body := some (RequestBody.stateVal (if newValue then "on" else "off")) }

/-- The webhook request built by `setEntityStateWebhook`:
`POST {webhook_url}`, no auth, body `{value}`. -/
def webhookRequest (config : Config) (newValue : Bool) : HttpRequest :=
  { httpMethod := "POST"
    url := config.webhook_url
    auth := none
    body := some (RequestBody.valueVal (if newValue then "on" else "off")) }

/-- `setEntityStateAPI`: try the semantic service call; if it resolves with a
non-success status, try the direct state set; if that also resolves
non-success, throw `Error("HTTP status: statusText")`.  A fetch rejection
propagates (the `catch` merely logs and rethrows).  The two oracle arguments
are the environment's replies to the service call and to the fallback (the
latter consulted only if the fallback is reached).  Returns the outcome and
the requests issued, in order. -/
def setEntityStateAPI (config : Config) (newValue : Bool)
    (serviceOutcome fallbackOutcome : Except JsError HttpResponse) :
    Except JsError Unit × List HttpRequest :=
  match serviceOutcome with
  | Except.error e => (Except.error e, [serviceRequest config newValue])
  | Except.ok resp =>
    if resp.isOk then
      (Except.ok (), [serviceRequest config newValue])
    else
      match fallbackOutcome with
      | Except.error e =>
        (Except.error e,
         [serviceRequest config newValue, stateRequest config newValue])
      | Except.ok fresp =>
        if fresp.isOk then
          (Except.ok (),
           [serviceRequest config newValue, stateRequest config newValue])
        else
          (Except.error (JsError.httpError fresp.status fresp.statusText),
           [serviceRequest config newValue, stateRequest config newValue])

/-- `setEntityStateWebhook`: one POST; non-success status throws
`Error("HTTP status: statusText")`; a fetch rejection propagates. -/
def setEntityStateWebhook (config : Config) (newValue : Bool)
    (outcome : Except JsError HttpResponse) :
    Except JsError Unit × List HttpRequest :=
  match outcome with
  | Except.error e => (Except.error e, [webhookRequest config newValue])
  | Except.ok resp =>
    if resp.isOk then
      (Except.ok (), [webhookRequest config newValue])
    else
      (Except.error (JsError.httpError resp.status resp.statusText),
       [webhookRequest config newValue])

/-- One invocation of the closure handed to `retryWithBackoff` inside
`setEntityState`: dispatch on the configured method.  The oracle pair holds
the environment's replies to the first and (for the API method, potential)
second fetch of this attempt. -/
def deliverOnce (config : Config) (newValue : Bool)
    (o : Except JsError HttpResponse × Except JsError HttpResponse) :
    Except JsError Unit × List HttpRequest :=
  if config.method = UpdateMethod.webhook then
    setEntityStateWebhook config newValue o.1
  else
    setEntityStateAPI config newValue o.1 o.2

/-- Outcome of `setEntityState`: the boolean reported to the caller (the
source returns `false` on failure and resolves without an explicit value on
success, which only the `=== false` check downstream observes, so success is
embedded as `true`), the number of invocations of the wrapped delivery
operation, and every HTTP request issued to the host / webhook. -/
structure DeliveryResult where
  success : Bool
  calls : Nat
  requests : List HttpRequest
deriving DecidableEq, Repr

/-- `setEntityState`: probe connectivity first and report failure without any
delivery when offline; otherwise run the method-dispatched delivery under
`retryWithBackoff` with the source defaults (3 retries, 1000ms base), and
report failure instead of rethrowing when retries are exhausted.
`env n` is the environment's replies to the fetches of attempt `n`. -/
def setEntityState (config : Config) (newValue : Bool)
    (probeOutcome : Except JsError HttpResponse)
    (env : Nat → Except JsError HttpResponse × Except JsError HttpResponse) :
    DeliveryResult :=
  if checkNetworkConnectivity probeOutcome then
    let r := retryWithBackoff
      (fun i => (deliverOnce config newValue (env i)).1) 3 1000
    let reqs := (List.range r.calls).flatMap
      (fun i => (deliverOnce config newValue (env i)).2)
    match r.result with
    | Except.ok _ => ⟨true, r.calls, reqs⟩
    | Except.error _ => ⟨false, r.calls, reqs⟩
  else
    ⟨false, 0, []⟩

/-- The translation function from `translations.js`, abstracted to the
message key: the claims depend only on which key is chosen and on what is
appended to it, never on the rendered localisation. -/
def t (key : String) : String := key

/-- `TestResult` from the `hass` module. -/
structure TestResult where
  success : Bool
  message : String
deriving DecidableEq, Repr

/-- JavaScript string coercion of a caught error value, used when an error
object is concatenated into a message. -/
def errString : JsError → String
  | JsError.httpError s txt => "Error: HTTP " ++ toString s ++ ": " ++ txt
  | JsError.netError m => m

/-- The GET request built by `testConnectionAPI`. -/
def testRequestAPI (config : Config) : HttpRequest :=
  { httpMethod := "GET"
    url := config.host ++ "/api/states/" ++ config.entity_id
    auth := some ("Bearer " ++ config.token)
    body := none }

/-- `testConnectionAPI`: a single GET of the entity state, mapped through the
`switch` on the exact status; a thrown fetch is converted to a failure
result, never rethrown. -/
def testConnectionAPI (config : Config)
    (outcome : Except JsError HttpResponse) : TestResult :=
  match outcome with
  | Except.error e =>
    ⟨false, t "test.unexpectedError" ++ ": " ++ errString e⟩
  | Except.ok resp =>
    if resp.status = 200 then ⟨true, t "test.apiValid"⟩
    else if resp.status = 401 then ⟨false, t "test.invalidToken"⟩
    else if resp.status = 404 then ⟨false, t "test.entityNotFound"⟩
    else ⟨false, t "test.unexpectedError" ++ ": HTTP " ++ toString resp.status⟩

/-- The POST request built by `testConnectionWebhook` (`{value: "on"}`). -/
def testRequestWebhook (config : Config) : HttpRequest :=
  { httpMethod := "POST"
    url := config.webhook_url
    auth := none
    body := some (RequestBody.valueVal "on") }

/-- `testConnectionWebhook`: a single POST of `{value: "on"}`; exactly status
200 is success; a thrown fetch is converted to a failure result. -/
def testConnectionWebhook (config : Config)
    (outcome : Except JsError HttpResponse) : TestResult :=
  match outcome with
  | Except.error e =>
    ⟨false, t "test.webhookFailed" ++ ": " ++ errString e⟩
  | Except.ok resp =>
    if resp.status = 200 then ⟨true, t "test.webhookValid"⟩
    else ⟨false, t "test.webhookFailed" ++ ": HTTP " ++ toString resp.status⟩

/-- `testConnection`: dispatch on the configured method. -/
def testConnection (config : Config)
    (outcome : Except JsError HttpResponse) : TestResult :=
  if config.method = UpdateMethod.webhook then
    testConnectionWebhook config outcome
  else
    testConnectionAPI config outcome

/-! ## The reconciler (`background.ts`)

`updateMeetingStateIfNeeded` has one piece of shared state
(`wasInMeeting : boolean | null`, embedded as `Option Bool`), a badge side
channel, and four external collaborators: the tab query (which is awaited
before the `try` block and may throw), the config store, the connectivity
probe and the delivery network.  One invocation of the handler is embedded
as a pure function of the old state and the collaborators' behaviour,
returning the new state, the badge updates issued in order, the number of
invocations of `setEntityState`, the HTTP requests issued to the host /
webhook, and the exception escaping the handler, if any. -/

/-- A badge update (`chrome.action.setBadgeText` plus
`setBadgeBackgroundColor`). -/
structure Badge where
  text : String
  color : String
deriving DecidableEq, Repr

/-- Badge shown when a meeting is detected ("ON" on red). -/
def badgeOn : Badge := ⟨"ON", "#FF0000"⟩

/-- Badge shown when no meeting is detected (cleared, green). -/
def badgeIdle : Badge := ⟨"", "#00FF00"⟩

/-- Badge shown on errors ("!" on orange). -/
def badgeError : Badge := ⟨"!", "orange"⟩

/-- Everything one invocation of `updateMeetingStateIfNeeded` does. -/
structure ReconcileResult where
  newState : Option Bool
  badges : List Badge
  deliveryAttempts : Nat
  requests : List HttpRequest
  thrown : Option JsError
deriving DecidableEq, Repr

/-- `updateMeetingStateIfNeeded` from `background.ts`.  `wasInMeeting` is the
cached state on entry; `tabsOutcome` the result of the awaited
`chrome.tabs.query` (count of tabs matching the Meet pattern, or a thrown
error — the query precedes the `try` block); `configOutcome` the result of
`loadConfig`; `probeOutcome` and `env` the network behaviour handed to
`setEntityState`.  `presence === wasInMeeting` short-circuits; otherwise the
state is updated, the presence badge set optimistically, and inside the
`try` the config is loaded and validated (invalid configs skip delivery
silently), delivery is attempted, and `=== false` results or caught
exceptions set the error badge. -/
def updateMeetingStateIfNeeded (wasInMeeting : Option Bool)
    (tabsOutcome : Except JsError Nat)
    (configOutcome : Except JsError Config)
    (probeOutcome : Except JsError HttpResponse)
    (env : Nat → Except JsError HttpResponse × Except JsError HttpResponse) :
    ReconcileResult :=
  match tabsOutcome with
  | Except.error e => ⟨wasInMeeting, [], 0, [], some e⟩
  | Except.ok tabCount =>
    let isInMeeting : Bool := decide (0 < tabCount)
    if wasInMeeting = some isInMeeting then
      ⟨wasInMeeting, [], 0, [], none⟩
    else
      let presenceBadge := if isInMeeting then badgeOn else badgeIdle
      match configOutcome with
      | Except.error _ =>
        ⟨some isInMeeting, [presenceBadge, badgeError], 0, [], none⟩
      | Except.ok config =>
        if !(validateConfig config).isValid then
          ⟨some isInMeeting, [presenceBadge], 0, [], none⟩
        else
          let d := setEntityState config isInMeeting probeOutcome env
          ⟨some isInMeeting,
           if d.success = false then [presenceBadge, badgeError]
           else [presenceBadge],
           1, d.requests, none⟩

/-! ## Theorems -/

/-- Explicit case analysis of a `retryWithBackoff` run at the source defaults
`maxRetries = 3`, `baseDelay = 1000`. -/
theorem retryWithBackoff_default_spec (fn : Nat → Except JsError α) :
    retryWithBackoff fn 3 1000 =
      match fn 0 with
      | Except.ok v => ⟨Except.ok v, 1, []⟩
      | Except.error _ =>
        match fn 1 with
        | Except.ok v => ⟨Except.ok v, 2, [1000]⟩
        | Except.error _ =>
          match fn 2 with
          | Except.ok v => ⟨Except.ok v, 3, [1000, 2000]⟩
          | Except.error _ =>
            match fn 3 with
            | Except.ok v => ⟨Except.ok v, 4, [1000, 2000, 4000]⟩
            | Except.error e => ⟨Except.error e, 4, [1000, 2000, 4000]⟩ := by
  cases h0 : fn 0 <;> cases h1 : fn 1 <;> cases h2 : fn 2 <;> cases h3 : fn 3 <;>
    simp [retryWithBackoff, retryAux, h0, h1, h2, h3]

/-- **C2**: `retryWithBackoff` with `maxRetries = 3` and `baseDelay = 1000`
invokes the wrapped operation at most 4 times; when every invocation fails it
performs exactly the waits 1000, 2000, 4000 (cumulatively 7000ms) and
rethrows the error of the last (fourth) invocation; when the first success
is at attempt `k` it returns that result after exactly `k + 1` invocations,
having waited `1000 * 2 ^ i` before re-invocation `i + 1`. -/
theorem retryWithBackoff_default_contract (fn : Nat → Except JsError α) :
    (retryWithBackoff fn 3 1000).calls ≤ 4
    ∧ ((∀ i, i ≤ 3 → ∃ e, fn i = Except.error e) →
        (retryWithBackoff fn 3 1000).result = fn 3
        ∧ (retryWithBackoff fn 3 1000).calls = 4
        ∧ (retryWithBackoff fn 3 1000).delays = [1000, 2000, 4000]
        ∧ (retryWithBackoff fn 3 1000).delays.sum = 7000)
    ∧ (∀ k v, k ≤ 3 → fn k = Except.ok v →
        (∀ i, i < k → ∃ e, fn i = Except.error e) →
        (retryWithBackoff fn 3 1000).result = Except.ok v
        ∧ (retryWithBackoff fn 3 1000).calls = k + 1
        ∧ (retryWithBackoff fn 3 1000).delays
            = (List.range k).map (fun i => 1000 * 2 ^ i)) := by
  have hspec := retryWithBackoff_default_spec fn
  cases h0 : fn 0 with
  | ok v0 =>
    rw [h0] at hspec
    simp only at hspec
    refine ⟨by simp [hspec], ?_, ?_⟩
    · intro hall
      rcases hall 0 (by omega) with ⟨e, he⟩
      rw [h0] at he
      exact absurd he (by simp)
    · intro k v hk hok hprev
      have hk0 : k = 0 := by
        by_contra hne
        rcases hprev 0 (by omega) with ⟨e, he⟩
        rw [h0] at he
        exact absurd he (by simp)
      subst hk0
      rw [h0] at hok
      simp_all [hspec]
  | error e0 =>
    cases h1 : fn 1 with
    | ok v1 =>
      rw [h0, h1] at hspec
      simp only at hspec
      refine ⟨by simp [hspec], ?_, ?_⟩
      · intro hall
        rcases hall 1 (by omega) with ⟨e, he⟩
        rw [h1] at he
        exact absurd he (by simp)
      · intro k v hk hok hprev
        have hk1 : k = 1 := by
          interval_cases k
          · simp_all
          · rfl
          · rcases hprev 1 (by omega) with ⟨e, he⟩; simp_all
          · rcases hprev 1 (by omega) with ⟨e, he⟩; simp_all
        subst hk1
        rw [h1] at hok
        simp_all [hspec, List.range_succ]
    | error e1 =>
      cases h2 : fn 2 with
      | ok v2 =>
        rw [h0, h1, h2] at hspec
        simp only at hspec
        refine ⟨by simp [hspec], ?_, ?_⟩
        · intro hall
          rcases hall 2 (by omega) with ⟨e, he⟩
          rw [h2] at he
          exact absurd he (by simp)
        · intro k v hk hok hprev
          have hk2 : k = 2 := by
            interval_cases k
            · simp_all
            · simp_all
            · rfl
            · rcases hprev 2 (by omega) with ⟨e, he⟩; simp_all
          subst hk2
          rw [h2] at hok
          simp_all [hspec, List.range_succ]
      | error e2 =>
        cases h3 : fn 3 with
        | ok v3 =>
          rw [h0, h1, h2, h3] at hspec
          simp only at hspec
          refine ⟨by simp [hspec], ?_, ?_⟩
          · intro hall
            rcases hall 3 (by omega) with ⟨e, he⟩
            rw [h3] at he
            exact absurd he (by simp)
          · intro k v hk hok hprev
            have hk3 : k = 3 := by interval_cases k <;> simp_all
            subst hk3
            rw [h3] at hok
            simp_all [hspec, List.range_succ]
        | error e3 =>
          rw [h0, h1, h2, h3] at hspec
          simp only at hspec
          refine ⟨by simp [hspec], ?_, ?_⟩
          · intro hall
            simp [hspec]
          · intro k v hk hok hprev
            interval_cases k <;> simp_all
/-- Witness for C2: with an always-failing operation, at most 4 calls are
made and the delays are exactly 1000, 2000, 4000. -/
theorem retryWithBackoff_default_contract_witness :
    ((retryWithBackoff
        (fun _ => (Except.error (JsError.netError "boom")
          : Except JsError Unit)) 3 1000).calls ≤ 4)
    ∧ (retryWithBackoff
        (fun _ => (Except.error (JsError.netError "boom")
          : Except JsError Unit)) 3 1000).delays = [1000, 2000, 4000] :=
  ⟨(retryWithBackoff_default_contract _).1,
   ((retryWithBackoff_default_contract _).2.1
      (fun i _ => ⟨JsError.netError "boom", rfl⟩)).2.2.1⟩

/-- **C6**: when the connectivity probe reports `false`, `setEntityState`
invokes neither delivery strategy: the wrapped operation is never called, no
HTTP request to the host or webhook is issued, and the outcome is reported
as failure (`false`). -/
theorem setEntityState_offline_gate (config : Config) (newValue : Bool)
    (probeOutcome : Except JsError HttpResponse)
    (env : Nat → Except JsError HttpResponse × Except JsError HttpResponse)
    (h : checkNetworkConnectivity probeOutcome = false) :
    setEntityState config newValue probeOutcome env = ⟨false, 0, []⟩ := by
  simp [setEntityState, h]

/-- Witness for C6: a rejected probe yields failure with no delivery. -/
theorem setEntityState_offline_gate_witness :
    checkNetworkConnectivity (Except.error (JsError.netError "offline")) = false
    ∧ setEntityState defaultConfig true
        (Except.error (JsError.netError "offline"))
        (fun _ => (Except.error (JsError.netError "offline"),
                   Except.error (JsError.netError "offline")))
      = ⟨false, 0, []⟩ :=
  ⟨rfl, setEntityState_offline_gate _ _ _ _ rfl⟩

/-- **C3**: in `setEntityStateAPI`, a non-success service-call response
triggers the direct state-set request (the fallback is in the trace, after
the service request, before any failure is reported); a success service-call
response returns without ever issuing the state-set request; and a
non-success fallback response yields a thrown error carrying the fallback's
status code and status text. -/
theorem setEntityStateAPI_fallback (config : Config) (v : Bool) :
    (∀ resp fb, resp.isOk = false →
        (setEntityStateAPI config v (Except.ok resp) fb).2
          = [serviceRequest config v, stateRequest config v])
    ∧ (∀ resp fb, resp.isOk = true →
        setEntityStateAPI config v (Except.ok resp) fb
          = (Except.ok (), [serviceRequest config v]))
    ∧ (∀ resp fresp, resp.isOk = false → fresp.isOk = false →
        (setEntityStateAPI config v (Except.ok resp) (Except.ok fresp)).1
          = Except.error (JsError.httpError fresp.status fresp.statusText)) := by
  refine ⟨?_, ?_, ?_⟩
  · intro resp fb h
    cases fb with
    | error e => simp [setEntityStateAPI, h]
    | ok fr =>
      by_cases hf : fr.isOk <;> simp [setEntityStateAPI, h, hf]
  · intro resp fb h
    simp [setEntityStateAPI, h]
  · intro resp fresp h hf
    simp [setEntityStateAPI, h, hf]

/-- Witness for C3: a 400 service response is followed by the state-set
request; a 500 fallback response surfaces as the thrown HTTP error; a 200
service response never reaches the fallback. -/
theorem setEntityStateAPI_fallback_witness :
    (setEntityStateAPI defaultConfig true
        (Except.ok ⟨400, "Bad Request"⟩) (Except.ok ⟨500, "Server Error"⟩)).2
      = [serviceRequest defaultConfig true, stateRequest defaultConfig true]
    ∧ (setEntityStateAPI defaultConfig true
        (Except.ok ⟨400, "Bad Request"⟩) (Except.ok ⟨500, "Server Error"⟩)).1
      = Except.error (JsError.httpError 500 "Server Error")
    ∧ setEntityStateAPI defaultConfig false
        (Except.ok ⟨200, "OK"⟩) (Except.ok ⟨500, "Server Error"⟩)
      = (Except.ok (), [serviceRequest defaultConfig false]) :=
  ⟨(setEntityStateAPI_fallback defaultConfig true).1 _ _ (by decide),
   (setEntityStateAPI_fallback defaultConfig true).2.2 _ _ (by decide) (by decide),
   (setEntityStateAPI_fallback defaultConfig false).2.1 _ _ (by decide)⟩

/-- **C10**: a thrown (rejected) service-call fetch skips the fallback
entirely — the state-set request is never issued and the same error
propagates out of `setEntityStateAPI` — and it is the whole
service-then-fallback sequence that the retry wrapper re-runs: with the
service fetch rejecting on every attempt, `setEntityState` makes exactly
four service requests and no state-set request before reporting failure. -/
theorem setEntityStateAPI_throw_skips_fallback :
    (∀ (config : Config) (v : Bool) (e : JsError) fb,
        setEntityStateAPI config v (Except.error e) fb
          = (Except.error e, [serviceRequest config v]))
    ∧ (∀ (config : Config) (v : Bool) probe env e,
        config.method = UpdateMethod.api →
        checkNetworkConnectivity probe = true →
        (∀ i, (env i).1 = Except.error e) →
        setEntityState config v probe env
          = ⟨false, 4,
             [serviceRequest config v, serviceRequest config v,
              serviceRequest config v, serviceRequest config v]⟩) := by
  constructor
  · intro config v e fb
    rfl
  · intro config v probe env e hm hp henv
    have hfn : ∀ i, (deliverOnce config v (env i)).1 = Except.error e := by
      intro i
      simp [deliverOnce, hm, henv i, setEntityStateAPI]
    have htr : ∀ i, (deliverOnce config v (env i)).2
        = [serviceRequest config v] := by
      intro i
      simp [deliverOnce, hm, henv i, setEntityStateAPI]
    have hsp := retryWithBackoff_default_spec
      (fun i => (deliverOnce config v (env i)).1)
    simp only [hfn] at hsp
    simp [setEntityState, hp, hfn, hsp, htr, List.range_succ]

/-- Witness for C10: with a connection-refused service fetch on every
attempt, the API method issues four service requests and no fallback. -/
theorem setEntityStateAPI_throw_skips_fallback_witness :
    setEntityState defaultConfig true (Except.ok ⟨200, "OK"⟩)
        (fun _ => (Except.error (JsError.netError "refused"),
                   Except.ok ⟨200, "OK"⟩))
      = ⟨false, 4,
         [serviceRequest defaultConfig true, serviceRequest defaultConfig true,
          serviceRequest defaultConfig true, serviceRequest defaultConfig true]⟩ :=
  setEntityStateAPI_throw_skips_fallback.2 defaultConfig true _ _
    (JsError.netError "refused") rfl (by decide) (fun i => rfl)

/-- **C7**: the connection test always resolves to a structured result and
maps statuses as the source does: for the API method 200 is success, 401 an
invalid-token failure, 404 an entity-not-found failure, and anything else a
generic failure whose message carries the status code; for the webhook
method exactly 200 is success and anything else a failure whose message
carries the status code; thrown fetches become failure results, never
rethrown. -/
theorem testConnection_mapping (config : Config) :
    (∀ txt, testConnectionAPI config (Except.ok ⟨200, txt⟩)
        = ⟨true, t "test.apiValid"⟩)
    ∧ (∀ txt, testConnectionAPI config (Except.ok ⟨401, txt⟩)
        = ⟨false, t "test.invalidToken"⟩)
    ∧ (∀ txt, testConnectionAPI config (Except.ok ⟨404, txt⟩)
        = ⟨false, t "test.entityNotFound"⟩)
    ∧ (∀ s txt, s ≠ 200 → s ≠ 401 → s ≠ 404 →
        testConnectionAPI config (Except.ok ⟨s, txt⟩)
          = ⟨false, t "test.unexpectedError" ++ ": HTTP " ++ toString s⟩)
    ∧ (∀ e, (testConnectionAPI config (Except.error e)).success = false)
    ∧ (∀ txt, testConnectionWebhook config (Except.ok ⟨200, txt⟩)
        = ⟨true, t "test.webhookValid"⟩)
    ∧ (∀ s txt, s ≠ 200 →
        testConnectionWebhook config (Except.ok ⟨s, txt⟩)
          = ⟨false, t "test.webhookFailed" ++ ": HTTP " ++ toString s⟩)
    ∧ (∀ e, (testConnectionWebhook config (Except.error e)).success = false) := by
  refine ⟨fun txt => rfl, fun txt => rfl, fun txt => rfl, ?_, fun e => rfl,
    fun txt => rfl, ?_, fun e => rfl⟩
  · intro s txt h200 h401 h404
    simp [testConnectionAPI, h200, h401, h404]
  · intro s txt h200
    simp [testConnectionWebhook, h200]

/-- Witness for C7: a 500 API response and a 503 webhook response map to
failures carrying their status codes. -/
theorem testConnection_mapping_witness :
    testConnectionAPI defaultConfig (Except.ok ⟨500, "Server Error"⟩)
      = ⟨false, t "test.unexpectedError" ++ ": HTTP " ++ toString 500⟩
    ∧ testConnectionWebhook defaultConfig (Except.ok ⟨503, "Unavailable"⟩)
      = ⟨false, t "test.webhookFailed" ++ ": HTTP " ++ toString 503⟩ :=
  ⟨(testConnection_mapping defaultConfig).2.2.2.1 500 "Server Error"
      (by decide) (by decide) (by decide),
   (testConnection_mapping defaultConfig).2.2.2.2.2.2.1 503 "Unavailable"
      (by decide)⟩

/-- A loadable, valid webhook configuration used in concrete witnesses. -/
def exampleWebhookConfig : Config :=
  { host := ""
    token := ""
    entity_id := ""
    method := UpdateMethod.webhook
    webhook_url := "https://ha.example/api/webhook/w1" }

/-- **C1**: when the newly observed presence equals the cached
`wasInMeeting`, the handler is a complete no-op — no state change, no badge
update, no delivery, no request; and, whenever the config loads and
validates, a delivery attempt occurs exactly when the observation differs
from the cache (which includes a still-`null` cache, since `null` never
equals a boolean). -/
theorem reconciler_transition_detection (st : Option Bool) (n : Nat)
    (configOutcome : Except JsError Config)
    (probe : Except JsError HttpResponse)
    (env : Nat → Except JsError HttpResponse × Except JsError HttpResponse) :
    (st = some (decide (0 < n)) →
      updateMeetingStateIfNeeded st (Except.ok n) configOutcome probe env
        = ⟨st, [], 0, [], none⟩)
    ∧ (∀ config, configOutcome = Except.ok config →
        (validateConfig config).isValid = true →
        ((updateMeetingStateIfNeeded st (Except.ok n) configOutcome probe
            env).deliveryAttempts = 1
          ↔ st ≠ some (decide (0 < n)))) := by
  constructor
  · intro h
    simp [updateMeetingStateIfNeeded, h]
  · intro config hc hv
    subst hc
    by_cases h : st = some (decide (0 < n)) <;>
      simp [updateMeetingStateIfNeeded, h, hv]

/-- Witness for C1: with a valid webhook config, a repeated `false`
observation is a no-op, and a first observation against a `null` cache is a
delivery attempt. -/
theorem reconciler_transition_detection_witness :
    updateMeetingStateIfNeeded (some false) (Except.ok 0)
        (Except.ok exampleWebhookConfig) (Except.ok ⟨200, "OK"⟩)
        (fun _ => (Except.ok ⟨200, "OK"⟩, Except.ok ⟨200, "OK"⟩))
      = ⟨some false, [], 0, [], none⟩
    ∧ ((updateMeetingStateIfNeeded none (Except.ok 0)
        (Except.ok exampleWebhookConfig) (Except.ok ⟨200, "OK"⟩)
        (fun _ => (Except.ok ⟨200, "OK"⟩,
          Except.ok ⟨200, "OK"⟩))).deliveryAttempts = 1
        ↔ (none : Option Bool) ≠ some (decide (0 < 0))) :=
  ⟨(reconciler_transition_detection (some false) 0 _ _ _).1 (by decide),
   (reconciler_transition_detection none 0 _ _ _).2 exampleWebhookConfig rfl
     (by decide)⟩

/-- **C5**: a config rejected by the validator makes the reconciler return
without invoking the delivery client and without issuing any request, and
the badge shows at most the presence update already made — never the error
badge. -/
theorem reconciler_config_gating (st : Option Bool) (n : Nat)
    (config : Config) (probe : Except JsError HttpResponse)
    (env : Nat → Except JsError HttpResponse × Except JsError HttpResponse)
    (hv : (validateConfig config).isValid = false) :
    (updateMeetingStateIfNeeded st (Except.ok n) (Except.ok config) probe
        env).deliveryAttempts = 0
    ∧ (updateMeetingStateIfNeeded st (Except.ok n) (Except.ok config) probe
        env).requests = []
    ∧ ((updateMeetingStateIfNeeded st (Except.ok n) (Except.ok config) probe
          env).badges = []
       ∨ (updateMeetingStateIfNeeded st (Except.ok n) (Except.ok config)
            probe env).badges
          = [if decide (0 < n) then badgeOn else badgeIdle]) := by
  by_cases h : st = some (decide (0 < n)) <;>
    simp [updateMeetingStateIfNeeded, h, hv]

/-- Witness for C5: the empty default config is invalid and delivery is
skipped on a `null`-to-`true` transition. -/
theorem reconciler_config_gating_witness :
    (validateConfig defaultConfig).isValid = false
    ∧ (updateMeetingStateIfNeeded none (Except.ok 1)
        (Except.ok defaultConfig) (Except.ok ⟨200, "OK"⟩)
        (fun _ => (Except.ok ⟨200, "OK"⟩,
          Except.ok ⟨200, "OK"⟩))).deliveryAttempts = 0 :=
  ⟨by decide,
   (reconciler_config_gating none 1 defaultConfig _ _ (by decide)).1⟩

/-- **C9**: on a transition the reconciler caches the new presence, and no
later failure — config load error, invalid config, failed delivery —
changes it again: the final state is the observed presence for every
collaborator behaviour, and a subsequent invocation observing the same
presence is a complete no-op (so a failed send is not re-attempted until
the next transition). -/
theorem reconciler_state_final (st : Option Bool) (n : Nat)
    (co : Except JsError Config) (probe : Except JsError HttpResponse)
    (env : Nat → Except JsError HttpResponse × Except JsError HttpResponse)
    (co2 : Except JsError Config) (probe2 : Except JsError HttpResponse)
    (env2 : Nat → Except JsError HttpResponse × Except JsError HttpResponse)
    (h : st ≠ some (decide (0 < n))) :
    (updateMeetingStateIfNeeded st (Except.ok n) co probe env).newState
      = some (decide (0 < n))
    ∧ updateMeetingStateIfNeeded
        (updateMeetingStateIfNeeded st (Except.ok n) co probe env).newState
        (Except.ok n) co2 probe2 env2
      = ⟨some (decide (0 < n)), [], 0, [], none⟩ := by
  have h1 : (updateMeetingStateIfNeeded st (Except.ok n) co probe
      env).newState = some (decide (0 < n)) := by
    cases co with
    | error e => simp [updateMeetingStateIfNeeded, h]
    | ok config =>
      by_cases hv : (validateConfig config).isValid <;>
        simp [updateMeetingStateIfNeeded, h, hv]
  refine ⟨h1, ?_⟩
  rw [h1]
  simp [updateMeetingStateIfNeeded]

/-- Witness for C9: a first `true` observation with a failing config store
and a dead network still caches `true`, and the repeated observation is a
no-op. -/
theorem reconciler_state_final_witness :
    (updateMeetingStateIfNeeded none (Except.ok 1)
        (Except.error (JsError.netError "storage"))
        (Except.error (JsError.netError "offline"))
        (fun _ => (Except.error (JsError.netError "offline"),
                   Except.error (JsError.netError "offline")))).newState
      = some (decide (0 < 1))
    ∧ updateMeetingStateIfNeeded
        (updateMeetingStateIfNeeded none (Except.ok 1)
          (Except.error (JsError.netError "storage"))
          (Except.error (JsError.netError "offline"))
          (fun _ => (Except.error (JsError.netError "offline"),
                     Except.error (JsError.netError "offline")))).newState
        (Except.ok 1) (Except.ok defaultConfig) (Except.ok ⟨200, "OK"⟩)
        (fun _ => (Except.ok ⟨200, "OK"⟩, Except.ok ⟨200, "OK"⟩))
      = ⟨some (decide (0 < 1)), [], 0, [], none⟩ :=
  reconciler_state_final none 1 _ _ _ _ _ _ (by decide)

/-- Counterexample to C8 as stated: the `await chrome.tabs.query` happens
before the `try` block, so a rejection of the tab query escapes the handler
instead of being caught. -/
theorem reconciler_tab_query_throw_escapes :
    (updateMeetingStateIfNeeded none
        (Except.error (JsError.netError "tabs.query rejected"))
        (Except.ok defaultConfig) (Except.ok ⟨200, "OK"⟩)
        (fun _ => (Except.ok ⟨200, "OK"⟩, Except.ok ⟨200, "OK"⟩))).thrown
      = some (JsError.netError "tabs.query rejected") := rfl

/-- **C8** (amended): whenever the tab query resolves, no exception escapes
`updateMeetingStateIfNeeded` — every failure of the config store or the
network is caught inside the handler — and a config-load exception is
reflected only as the error badge; only a rejection of the tab query
itself, which precedes the `try` block, escapes. -/
theorem reconciler_no_escape_after_query (st : Option Bool) (n : Nat)
    (co : Except JsError Config) (probe : Except JsError HttpResponse)
    (env : Nat → Except JsError HttpResponse × Except JsError HttpResponse) :
    (updateMeetingStateIfNeeded st (Except.ok n) co probe env).thrown = none
    ∧ (∀ e, co = Except.error e → st ≠ some (decide (0 < n)) →
        (updateMeetingStateIfNeeded st (Except.ok n) co probe env).badges
          = [if decide (0 < n) then badgeOn else badgeIdle, badgeError]) := by
  constructor
  · by_cases h : st = some (decide (0 < n))
    · simp [updateMeetingStateIfNeeded, h]
    · cases co with
      | error e => simp [updateMeetingStateIfNeeded, h]
      | ok config =>
        by_cases hv : (validateConfig config).isValid <;>
          simp [updateMeetingStateIfNeeded, h, hv]
  · intro e hco hst
    subst hco
    simp [updateMeetingStateIfNeeded, hst]

/-- Witness for C8 (amended): a config-store failure on a first `true`
observation terminates normally with the error badge. -/
theorem reconciler_no_escape_after_query_witness :
    (updateMeetingStateIfNeeded none (Except.ok 1)
        (Except.error (JsError.netError "storage failure"))
        (Except.ok ⟨200, "OK"⟩)
        (fun _ => (Except.ok ⟨200, "OK"⟩, Except.ok ⟨200, "OK"⟩))).thrown
      = none
    ∧ (updateMeetingStateIfNeeded none (Except.ok 1)
        (Except.error (JsError.netError "storage failure"))
        (Except.ok ⟨200, "OK"⟩)
        (fun _ => (Except.ok ⟨200, "OK"⟩, Except.ok ⟨200, "OK"⟩))).badges
      = [if decide (0 < 1) then badgeOn else badgeIdle, badgeError] :=
  ⟨(reconciler_no_escape_after_query none 1 _ _ _).1,
   (reconciler_no_escape_after_query none 1 _ _ _).2
     (JsError.netError "storage failure") rfl (by decide)⟩

/-- **C4**: `validateConfig` applies its rules in order: an all-empty config
returns invalid with exactly the single "configure first" error, never
combined with any other; otherwise for the API method an error accumulates
exactly for each of a missing host, a host without an http(s) prefix, a
missing entity id, and a missing-or-placeholder token; otherwise for the
webhook method exactly for a missing webhook URL; `isValid` holds exactly
when no error accumulated. -/
theorem validateConfig_rules (c : Config) :
    ((c.host = "" ∧ c.token = "" ∧ c.webhook_url = "") →
      validateConfig c = ⟨false, ["Please configure the extension first"]⟩)
    ∧ (¬(c.host = "" ∧ c.token = "" ∧ c.webhook_url = "") →
        c.method = UpdateMethod.api →
        (("Home Assistant host URL is required" ∈ (validateConfig c).errors
            ↔ (c.host = "" ∨ jsTrim c.host = ""))
        ∧ ("Home Assistant host URL must start with http:// or https://"
              ∈ (validateConfig c).errors
            ↔ (¬(c.host = "" ∨ jsTrim c.host = "")
               ∧ jsStartsWith c.host "http://" = false
               ∧ jsStartsWith c.host "https://" = false))
        ∧ ("Entity ID is required" ∈ (validateConfig c).errors
            ↔ (c.entity_id = "" ∨ jsTrim c.entity_id = ""))
        ∧ ("API token is required for API method" ∈ (validateConfig c).errors
            ↔ (c.token = "" ∨ jsTrim c.token = "" ∨ c.token = "xxxxxxx"))))
    ∧ (¬(c.host = "" ∧ c.token = "" ∧ c.webhook_url = "") →
        c.method = UpdateMethod.webhook →
        (validateConfig c).errors
          = (if c.webhook_url = "" ∨ jsTrim c.webhook_url = "" then
              ["Webhook URL is required for webhook method"] else []))
    ∧ ((validateConfig c).isValid = true ↔ (validateConfig c).errors = []) := by
  refine ⟨?_, ?_, ?_, ?_⟩
  · rintro ⟨h1, h2, h3⟩
    simp [validateConfig, strFalsy, h1, h2, h3]
  · intro hne hm
    have hb : (strFalsy c.host && strFalsy c.token && strFalsy c.webhook_url)
        = false := by
      simp only [strFalsy, Bool.and_eq_false_iff, decide_eq_false_iff_not]
      tauto
    simp only [validateConfig, hb, Bool.false_eq_true, if_false, hm]
    simp only [reduceIte]
    split_ifs <;> simp_all [strFalsy] <;> tauto
  · intro hne hm
    have hb : (strFalsy c.host && strFalsy c.token && strFalsy c.webhook_url)
        = false := by
      simp only [strFalsy, Bool.and_eq_false_iff, decide_eq_false_iff_not]
      tauto
    simp only [validateConfig, hb, Bool.false_eq_true, if_false, hm]
    split_ifs <;> simp_all [strFalsy]
  · by_cases hemp :
      (strFalsy c.host && strFalsy c.token && strFalsy c.webhook_url) = true
    · simp [validateConfig, hemp]
    · have hb : (strFalsy c.host && strFalsy c.token && strFalsy c.webhook_url)
          = false := by
        revert hemp
        cases strFalsy c.host && strFalsy c.token && strFalsy c.webhook_url <;>
          simp
      simp [validateConfig, hb, List.isEmpty_iff]

/-- Witness for C4: the default empty config yields exactly the single
first-run error; an API config with a trailing-space host, placeholder
token and empty entity id accumulates exactly the three field errors; a
webhook config with a URL is valid. -/
theorem validateConfig_rules_witness :
    validateConfig defaultConfig
      = ⟨false, ["Please configure the extension first"]⟩
    ∧ ("API token is required for API method"
        ∈ (validateConfig
            { host := "ha.local"
              token := "xxxxxxx"
              entity_id := ""
              method := UpdateMethod.api
              webhook_url := "" }).errors
        ↔ ("xxxxxxx" = "" ∨ jsTrim "xxxxxxx" = "" ∨ "xxxxxxx" = "xxxxxxx"))
    ∧ (validateConfig exampleWebhookConfig).errors
      = (if exampleWebhookConfig.webhook_url = ""
            ∨ jsTrim exampleWebhookConfig.webhook_url = "" then
          ["Webhook URL is required for webhook method"] else []) :=
  ⟨(validateConfig_rules defaultConfig).1 ⟨rfl, rfl, rfl⟩,
   ((validateConfig_rules
      { host := "ha.local"
        token := "xxxxxxx"
        entity_id := ""
        method := UpdateMethod.api
        webhook_url := "" }).2.1 (by simp) rfl).2.2.2,
   (validateConfig_rules exampleWebhookConfig).2.2.1 (by simp [exampleWebhookConfig]) rfl⟩

end MeetHass
